import Mathlib

/-!
Verification of the pogr_log_rs structured-log shipping sink (src/lib.rs).

The development shallowly embeds the data model and the operations of the
crate: the JSON envelope builder and merge in `POGRLogger::log`, the direct
`custom_log` path, the auth-header decorator, the `structured_log!` macro's
message shape, and the global registration state touched by `init_logger`
and read by `LoggerFn`.

Modelling conventions:
- JSON values are the inductive `Json`; objects are ordered association
  lists with insert-or-overwrite update (`setKey`), matching the design
  note "model the envelope as an ordered mapping from string key to a
  tagged JSON value; implement merge as insert-or-overwrite".
- `serde_json::from_str` is an external library call; the parse result of
  the record's message is passed explicitly as an `Option Json` argument
  (`none` = parse error, `some j` = parsed value `j`).  A map produced by
  that parser has pairwise-distinct keys, which appears as a `Nodup`
  hypothesis where it matters.
- Panics are modelled as `Except.error` with the panic/expect message;
  the fire-and-forget HTTP POST is modelled as the `Request` value the
  spawned task would send (url, JSON body, headers).
-/

/-- A JSON value as manipulated by serde_json: null, booleans, numbers
(integral payloads suffice for this development), strings, arrays, and
objects as ordered key/value association lists. -/
inductive Json where
  | null
  | bool (b : Bool)
  | num (n : Int)
  | str (s : String)
  | arr (elems : List Json)
  | obj (fields : List (String × Json))
deriving Inhabited

/-- Whether a JSON value is an object (the `serde_json::Value::Object`
pattern tested by the merge branch of `POGRLogger::log`). -/
def Json.isObj : Json → Bool
  | .obj _ => true
  | _ => false

/-- Association-list lookup over an object's field list: the first binding
of the key, the way `serde_json::Value::get` observes an object. -/
def getKey : List (String × Json) → String → Option Json
  | [], _ => none
  | (k', v) :: rest, k => if k' = k then some v else getKey rest k

/-- Field lookup on a JSON value: `none` on non-objects. -/
def Json.lookup : Json → String → Option Json
  | .obj fields, k => getKey fields k
  | _, _ => none

/-- Insert-or-overwrite of one key, the effect of the Rust assignment
`structured_data[&key] = value` on a JSON object: overwrite the existing
binding in place, or append a fresh one. -/
def setKey : List (String × Json) → String → Json → List (String × Json)
  | [], k, v => [(k, v)]
  | (k', v') :: rest, k, v =>
    if k' = k then (k, v) :: rest else (k', v') :: setKey rest k v

/-- Folding `setKey` over a list of fields: the loop
`for (key, value) in drained_map { structured_data[&key] = value }`. -/
def mergeFold (base : List (String × Json)) (fields : List (String × Json)) :
    List (String × Json) :=
  fields.foldl (fun acc kv => setKey acc kv.1 kv.2) base

/-- The five levels of the `log` crate, `Error` most severe. -/
inductive Level where
  | error
  | warn
  | info
  | debug
  | trace
deriving DecidableEq, Repr

/-- The numeric value the `log` crate assigns each level (`Error = 1`
through `Trace = 5`); its `Ord` instance compares these numbers, smaller
meaning more severe. -/
def Level.toNat : Level → Nat
  | .error => 1
  | .warn => 2
  | .info => 3
  | .debug => 4
  | .trace => 5

/-- `a <= b` on levels in the `log` crate's order. -/
def Level.le (a b : Level) : Bool :=
  a.toNat ≤ b.toNat

/-- The result of `level.to_string().to_lowercase()` in Rust: the level's
display name ("ERROR", "WARN", ...) lowercased. -/
def Level.lowercaseName : Level → String
  | .error => "error"
  | .warn => "warn"
  | .info => "info"
  | .debug => "debug"
  | .trace => "trace"

/-- `log::LevelFilter`: `Off` plus the five levels. -/
inductive LevelFilter where
  | off
  | error
  | warn
  | info
  | debug
  | trace
deriving DecidableEq, Repr

/-- Numeric value of a filter (`Off = 0` through `Trace = 5`). -/
def LevelFilter.toNat : LevelFilter → Nat
  | .off => 0
  | .error => 1
  | .warn => 2
  | .info => 3
  | .debug => 4
  | .trace => 5

/-- A record at `level` passes a max-level filter when
`level <= filter` in the `log` crate's numeric order. -/
def Level.satisfiesFilter (level : Level) (f : LevelFilter) : Bool :=
  level.toNat ≤ f.toNat

/-- `LoggerConfig`: service and environment identity plus an optional
default type (src/lib.rs lines 67-72). -/
structure LoggerConfig where
  service : String
  environment : String
  default_type : Option String
deriving DecidableEq, Repr

/-- `LogConfig`: the two-variant auth configuration (src/lib.rs lines
58-64). -/
inductive LogConfig where
  | ClientBuild (client_id build_id : String) (logger_config : LoggerConfig)
  | AccessKeys (access_key secret_key : String) (logger_config : LoggerConfig)
deriving DecidableEq, Repr

/-- `reqwest::Client`, opaque to this crate; `Client::new()` is its only
constructor used. -/
inductive Client where
  | new
deriving DecidableEq, Repr

/-- `POGRLogger` (src/lib.rs lines 78-83). -/
structure POGRLogger where
  client : Option Client
  api_url : Option String
  auth_config : LogConfig
  logger_config : LoggerConfig
deriving DecidableEq, Repr

/-- The hardcoded default intake URL (src/lib.rs lines 210 and 261). -/
def defaultIntakeUrl : String := "https://api.pogr.io/v1/intake/logs"

/-- `POGRLogger::new` (src/lib.rs lines 202-222).  `envIntakeUrl` is the
value of the `POGR_INTAKE_URL` environment variable, read when no explicit
`api_url` is given. -/
def POGRLogger.new (envIntakeUrl : Option String) (client : Client)
    (api_url : Option String) (auth_config : LogConfig)
    (logger_config : LoggerConfig) : POGRLogger :=
  let api_url :=
    match api_url with
    | some url => url
    | none =>
      match envIntakeUrl with
      | some url => url
      | none => defaultIntakeUrl
  { client := some client, api_url := some api_url, auth_config, logger_config }

/-- `POGRLogger::set_client` (src/lib.rs lines 224-226). -/
def POGRLogger.set_client (l : POGRLogger) (client : Client) : POGRLogger :=
  { l with client := some client }

/-- `POGRLogger::set_api_url` (src/lib.rs lines 228-230). -/
def POGRLogger.set_api_url (l : POGRLogger) (api_url : String) : POGRLogger :=
  { l with api_url := some api_url }

/-- `POGRLogger::enabled` (src/lib.rs lines 92-97):
`metadata.level() <= log::Level::Info`, a hardcoded threshold. -/
def POGRLogger.enabled (_l : POGRLogger) (level : Level) : Bool :=
  Level.le level .info

/-- The base envelope of `POGRLogger::log` (src/lib.rs lines 120-124):
`json!` builds a map, sorted by key as serde_json's default map is. -/
def baseEnvelope (lc : LoggerConfig) (level : Level) : List (String × Json) :=
  [("environment", .str lc.environment),
   ("service", .str lc.service),
   ("severity", .str level.lowercaseName)]

/-- The envelope fields `POGRLogger::log` builds for a record
(src/lib.rs lines 117-140).  `parsed` is the result of
`serde_json::from_str` on the record's message `msg`:
- parsed object: merge its fields over the base envelope;
- parsed non-object: leave the base envelope untouched;
- parse error: set the `log` field to the message string verbatim. -/
def logEnvelopeFields (lc : LoggerConfig) (level : Level) (msg : String)
    (parsed : Option Json) : List (String × Json) :=
  let structured_data := baseEnvelope lc level
  match parsed with
  | some (.obj fields) => mergeFold structured_data fields
  | some _ => structured_data
  | none => setKey structured_data "log" (.str msg)

/-- The auth headers attached per variant, identical on both dispatch
paths (src/lib.rs lines 154-165 and 281-290). -/
def authHeaders : LogConfig → List (String × String)
  | .ClientBuild client_id build_id _ =>
    [("POGR_CLIENT", client_id), ("POGR_BUILD", build_id)]
  | .AccessKeys access_key secret_key _ =>
    [("POGR_ACCESS", access_key), ("POGR_SECRET", secret_key)]

/-- The HTTP POST a detached dispatch task would send: target URL, JSON
body, and explicitly attached headers. -/
structure Request where
  url : String
  body : Json
  headers : List (String × String)
deriving Inhabited

/-- `POGRLogger::log` (src/lib.rs lines 113-171), with panics as
`Except.error` carrying the expect message.  Returns `ok none` when the
level is disabled (no envelope, no request) and `ok (some req)` with the
request the spawned task sends otherwise. -/
def POGRLogger.log (l : POGRLogger) (level : Level) (msg : String)
    (parsed : Option Json) : Except String (Option Request) :=
  if l.enabled level then
    let structured_data := Json.obj (logEnvelopeFields l.logger_config level msg parsed)
    match l.api_url with
    | none => .error "API URL must be set"
    | some api_url =>
      match l.client with
      | none => .error "REASON"
      | some _ =>
        .ok (some { url := api_url, body := structured_data,
                    headers := authHeaders l.auth_config })
  else
    .ok none

/-- `POGRLogger::flush` (src/lib.rs line 183): a no-op. -/
def POGRLogger.flush (_l : POGRLogger) : Unit := ()

/-- The envelope of `POGRLogger::custom_log` (src/lib.rs lines 266-274):
`json!` with the seven fixed keys, sorted as serde_json's default map
sorts them; `data` and `tags` embedded as given. -/
def customEnvelopeFields (lc : LoggerConfig) (level : Level)
    (msg log_type : String) (data tags : Json) : List (String × Json) :=
  [("data", data),
   ("environment", .str lc.environment),
   ("log", .str msg),
   ("service", .str lc.service),
   ("severity", .str level.lowercaseName),
   ("tags", tags),
   ("type", .str log_type)]

/-- `POGRLogger::custom_log` (src/lib.rs lines 248-301): with no client it
prints a diagnostic and returns without a request (`none`); otherwise the
spawned task posts the seven-field envelope with an explicit content-type
header plus the variant's auth headers.  A missing URL falls back to the
default after a diagnostic. -/
def POGRLogger.custom_log (l : POGRLogger) (level : Level)
    (msg log_type : String) (data tags : Json) : Option Request :=
  match l.client with
  | none => none
  | some _ =>
    let api_url := l.api_url.getD defaultIntakeUrl
    some { url := api_url,
           body := .obj (customEnvelopeFields l.logger_config level msg log_type data tags),
           headers := ("content-type", "application/json") :: authHeaders l.auth_config }

/-- The JSON object the `structured_log!` macro builds and serializes as
the record message (src/lib.rs lines 28-36): `json!` with keys log, type,
data, tags, sorted as serde_json's default map sorts them.  The macro logs
its string form; parsing that string back in `POGRLogger::log` yields this
value again (serde round-trip), so it is what the facade path receives as
the parsed message. -/
def structuredLogMessage (msg log_type : String) (data tags : Json) : Json :=
  .obj [("data", data),
        ("log", .str msg),
        ("tags", tags),
        ("type", .str log_type)]

/-- The process-global mutable state the crate touches: the `LOGGER`
once-cell (src/lib.rs line 308), whether `log::set_logger` has installed a
backend, and the `log::set_max_level` filter. -/
structure GlobalState where
  loggerCell : Option POGRLogger
  registered : Bool
  maxLevel : LevelFilter
deriving DecidableEq, Repr

/-- Process start: empty `LOGGER` cell, no backend registered, max level
`Off` (the `log` crate's initial filter). -/
def initialState : GlobalState :=
  { loggerCell := none, registered := false, maxLevel := .off }

/-- `init_logger` (src/lib.rs lines 310-325): constructs a `POGRLogger`
(bound to `_logger` and dropped — the `LOGGER.get_or_init` line is
commented out, so the cell is never written), then `set_logger(LOG_FN)`,
whose `expect` panics if a backend is already registered, then
`set_max_level(filter)`. -/
def init_logger (envIntakeUrl : Option String) (auth_config : LogConfig)
    (api_url : Option String) (logger_config : LoggerConfig)
    (filter : LevelFilter) (st : GlobalState) : Except String GlobalState :=
  let _logger := POGRLogger.new envIntakeUrl Client.new api_url auth_config logger_config
  if st.registered then
    .error "Failed to set logger"
  else
    .ok { st with registered := true, maxLevel := filter }

/-- The panic message of `Option::unwrap` on `None`, raised by
`LOGGER.get().unwrap()` when the cell is empty. -/
def unwrapNoneMsg : String := "called Option.unwrap on a None value"

/-- `LoggerFn::enabled` (src/lib.rs lines 330-332):
`LOGGER.get().unwrap().lock().unwrap().enabled(metadata)`, panicking when
the cell is empty. -/
def LoggerFn.enabled (st : GlobalState) (level : Level) : Except String Bool :=
  match st.loggerCell with
  | none => .error unwrapNoneMsg
  | some l => .ok (l.enabled level)

/-- `LoggerFn::log` (src/lib.rs lines 334-336). -/
def LoggerFn.log (st : GlobalState) (level : Level) (msg : String)
    (parsed : Option Json) : Except String (Option Request) :=
  match st.loggerCell with
  | none => .error unwrapNoneMsg
  | some l => l.log level msg parsed

/-- `LoggerFn::flush` (src/lib.rs lines 338-340). -/
def LoggerFn.flush (st : GlobalState) : Except String Unit :=
  match st.loggerCell with
  | none => .error unwrapNoneMsg
  | some _ => .ok ()

/-- Global states reachable through the public interface: the initial
state, followed by any successful `init_logger` calls — the only public
operation that writes process-global state. -/
inductive Reachable : GlobalState → Prop where
  | init : Reachable initialState
  | step {st st' : GlobalState} (envIntakeUrl : Option String)
      (auth_config : LogConfig) (api_url : Option String)
      (logger_config : LoggerConfig) (filter : LevelFilter) :
      Reachable st →
      init_logger envIntakeUrl auth_config api_url logger_config filter st = .ok st' →
      Reachable st'

/-- What the spec asserts of `is_enabled`: true iff the level is at least
as severe as the configured minimum threshold (the filter installed by
registration).  Stated from the spec's words, for comparison with the
code's `POGRLogger.enabled`. -/
def enabledSpec (threshold : LevelFilter) (level : Level) : Bool :=
  Level.satisfiesFilter level threshold

/-! ### Lemmas on object update and merge -/

theorem getKey_setKey_self (l : List (String × Json)) (k : String) (v : Json) :
    getKey (setKey l k v) k = some v := by
  induction l with
  | nil => simp [setKey, getKey]
  | cons hd tl ih =>
    obtain ⟨k', v'⟩ := hd
    by_cases h : k' = k
    · simp [setKey, h, getKey]
    · simp [setKey, h, getKey, ih]

theorem getKey_setKey_ne (l : List (String × Json)) (k k' : String) (v : Json)
    (h : k' ≠ k) : getKey (setKey l k v) k' = getKey l k' := by
  have hks : ¬ k = k' := fun e => h (Eq.symm e)
  induction l with
  | nil =>
    simp only [setKey, getKey]
    rw [if_neg hks]
  | cons hd tl ih =>
    obtain ⟨k₀, v₀⟩ := hd
    by_cases h₀ : k₀ = k
    · subst h₀
      simp only [setKey, if_pos rfl, getKey]
      rw [if_neg hks, if_neg hks]
    · simp only [setKey, if_neg h₀, getKey]
      by_cases h₁ : k₀ = k'
      · rw [if_pos h₁, if_pos h₁]
      · rw [if_neg h₁, if_neg h₁, ih]

theorem mergeFold_cons (base : List (String × Json)) (kv : String × Json)
    (fields : List (String × Json)) :
    mergeFold base (kv :: fields) = mergeFold (setKey base kv.1 kv.2) fields := rfl

theorem getKey_mergeFold_not_mem (fields : List (String × Json)) :
    ∀ (base : List (String × Json)) (k : String),
      k ∉ fields.map Prod.fst → getKey (mergeFold base fields) k = getKey base k := by
  induction fields with
  | nil => intro base k _; rfl
  | cons hd tl ih =>
    intro base k hk
    simp only [List.map_cons, List.mem_cons, not_or] at hk
    rw [mergeFold_cons, ih _ k hk.2, getKey_setKey_ne _ _ _ _ hk.1]

theorem getKey_mergeFold_mem (fields : List (String × Json)) :
    ∀ (base : List (String × Json)) (k : String) (v : Json),
      (fields.map Prod.fst).Nodup → (k, v) ∈ fields →
      getKey (mergeFold base fields) k = some v := by
  induction fields with
  | nil => intro _ _ _ _ hmem; cases hmem
  | cons hd tl ih =>
    intro base k v hnd hmem
    rw [List.map_cons, List.nodup_cons] at hnd
    rw [mergeFold_cons]
    rcases List.mem_cons.mp hmem with heq | hmem'
    · subst heq
      rw [getKey_mergeFold_not_mem tl _ k hnd.1, getKey_setKey_self]
    · exact ih _ k v hnd.2 hmem'

/-! ### Concrete fixtures used by witnesses and counterexamples -/

/-- A concrete logger identity, as in the spec's scenarios. -/
def testLoggerConfig : LoggerConfig :=
  { service := "svc", environment := "prod", default_type := none }

/-- A concrete AccessKeys auth configuration. -/
def testAuth : LogConfig := .AccessKeys "AK" "SK" testLoggerConfig

/-- A concrete logger built through the public constructor. -/
def testLogger : POGRLogger :=
  POGRLogger.new none Client.new (some "https://example.test/intake") testAuth testLoggerConfig

/-! ### Claims -/

/-- C1: for every RawRecord at an enabled level whose message string parses
as a JSON object, the shipped envelope contains every key/value pair of
that object, and for every key colliding with the base fields service,
environment or severity the envelope carries the value from the message
object, not the base value.  (The `Nodup` hypothesis holds of every map
serde_json's parser produces; the `api_url`/`client` hypotheses hold of
every logger built through the public constructor.) -/
theorem log_merges_object_message_fields (l : POGRLogger) (level : Level)
    (msg : String) (fields : List (String × Json)) (u : String) (c : Client)
    (hen : l.enabled level = true)
    (hu : l.api_url = some u) (hc : l.client = some c)
    (hnd : (fields.map Prod.fst).Nodup) :
    ∃ req : Request, l.log level msg (some (.obj fields)) = .ok (some req) ∧
      (∀ kv ∈ fields, req.body.lookup kv.1 = some kv.2) ∧
      (∀ v : Json, ("service", v) ∈ fields → req.body.lookup "service" = some v) ∧
      (∀ v : Json, ("environment", v) ∈ fields → req.body.lookup "environment" = some v) ∧
      (∀ v : Json, ("severity", v) ∈ fields → req.body.lookup "severity" = some v) := by
  have hmain : ∀ kv ∈ fields,
      (Json.obj (logEnvelopeFields l.logger_config level msg (some (.obj fields)))).lookup kv.1
        = some kv.2 := by
    intro kv hkv
    have hmem : (kv.1, kv.2) ∈ fields := by simpa using hkv
    simpa [Json.lookup, logEnvelopeFields] using
      getKey_mergeFold_mem fields (baseEnvelope l.logger_config level) kv.1 kv.2 hnd hmem
  refine ⟨{ url := u,
            body := .obj (logEnvelopeFields l.logger_config level msg (some (.obj fields))),
            headers := authHeaders l.auth_config },
          ?_, hmain, fun v hv => hmain ("service", v) hv,
          fun v hv => hmain ("environment", v) hv,
          fun v hv => hmain ("severity", v) hv⟩
  simp [POGRLogger.log, hen, hu, hc]

/-- Witness for C1: a concrete record whose message object both adds a new
key and collides with the base `severity` field. -/
theorem log_merges_object_message_fields_witness :
    ∃ req : Request,
      testLogger.log .info "m"
        (some (.obj [("severity", .str "custom"), ("user_id", .num 123)])) = .ok (some req) ∧
      (∀ kv ∈ [("severity", Json.str "custom"), ("user_id", Json.num 123)],
        req.body.lookup kv.1 = some kv.2) ∧
      (∀ v : Json, ("service", v) ∈ [("severity", Json.str "custom"), ("user_id", Json.num 123)] →
        req.body.lookup "service" = some v) ∧
      (∀ v : Json, ("environment", v) ∈ [("severity", Json.str "custom"), ("user_id", Json.num 123)] →
        req.body.lookup "environment" = some v) ∧
      (∀ v : Json, ("severity", v) ∈ [("severity", Json.str "custom"), ("user_id", Json.num 123)] →
        req.body.lookup "severity" = some v) :=
  log_merges_object_message_fields testLogger .info "m"
    [("severity", .str "custom"), ("user_id", .num 123)]
    "https://example.test/intake" .new rfl rfl rfl (by decide)

/-- C2 (divergence evidence): for the record message "42", which serde
parses as the JSON number 42, the code ships only the three base fields
and sets no `log` key at all, while the crate's own doc comment on
`POGRLogger::log` ("Otherwise, it includes the original log message as a
string") and the spec require `log` = "42". -/
theorem log_drops_bare_number_message :
    testLogger.log .info "42" (some (.num 42)) =
      .ok (some { url := "https://example.test/intake",
                  body := .obj (baseEnvelope testLoggerConfig .info),
                  headers := authHeaders testAuth }) ∧
    (Json.obj (logEnvelopeFields testLoggerConfig .info "42" (some (.num 42)))).lookup "log"
      = none :=
  ⟨rfl, rfl⟩

/-- C3: for every RawRecord at an enabled level whose message parses as
valid JSON whose top-level value is not an object, the shipped envelope is
exactly the three base fields; the message text is dropped and no `log`
key is set. -/
theorem log_valid_nonobject_ships_base_only (l : POGRLogger) (level : Level)
    (msg : String) (j : Json) (u : String) (c : Client)
    (hen : l.enabled level = true) (hu : l.api_url = some u) (hc : l.client = some c)
    (hobj : j.isObj = false) :
    l.log level msg (some j) =
      .ok (some { url := u,
                  body := .obj (baseEnvelope l.logger_config level),
                  headers := authHeaders l.auth_config }) ∧
    (Json.obj (baseEnvelope l.logger_config level)).lookup "log" = none := by
  constructor
  · cases j <;> simp_all [POGRLogger.log, logEnvelopeFields, Json.isObj]
  · rfl

/-- Witness for C3: a bare JSON array message. -/
theorem log_valid_nonobject_ships_base_only_witness :
    testLogger.log .warn "[1,2]" (some (.arr [.num 1, .num 2])) =
      .ok (some { url := "https://example.test/intake",
                  body := .obj (baseEnvelope testLoggerConfig .warn),
                  headers := authHeaders testAuth }) ∧
    (Json.obj (baseEnvelope testLoggerConfig .warn)).lookup "log" = none :=
  log_valid_nonobject_ships_base_only testLogger .warn "[1,2]" (.arr [.num 1, .num 2])
    "https://example.test/intake" .new rfl rfl rfl rfl

/-- The global state one successful `init_logger` call leaves behind with
filter `Info`: the backend slot holds `LoggerFn`, but the `LOGGER` cell is
still empty. -/
def stAfterInit : GlobalState :=
  { loggerCell := none, registered := true, maxLevel := .info }

/-- C4 (divergence evidence): after `init_logger` (any configuration), the
registered backend's `enabled`, `log` and `flush` all panic on
`LOGGER.get().unwrap()`, because the constructed logger is dropped and the
cell never written — a logging call through the facade does not return
normally. -/
theorem facade_calls_panic_after_init :
    init_logger none testAuth none testLoggerConfig .info initialState = .ok stAfterInit ∧
    LoggerFn.enabled stAfterInit .info = .error unwrapNoneMsg ∧
    LoggerFn.log stAfterInit .info "hello" none = .error unwrapNoneMsg ∧
    LoggerFn.flush stAfterInit = .error unwrapNoneMsg :=
  ⟨rfl, rfl, rfl, rfl⟩

/-- C5: in every global state reachable through the public interface the
`LOGGER` cell is empty, so every `enabled`, `log` or `flush` call routed
through the registered `LoggerFn` backend panics on
`LOGGER.get().unwrap()`. -/
theorem logger_cell_never_set (st : GlobalState) (hr : Reachable st) :
    st.loggerCell = none ∧
    (∀ level : Level, LoggerFn.enabled st level = .error unwrapNoneMsg) ∧
    (∀ (level : Level) (msg : String) (parsed : Option Json),
      LoggerFn.log st level msg parsed = .error unwrapNoneMsg) ∧
    LoggerFn.flush st = .error unwrapNoneMsg := by
  have hcell : st.loggerCell = none := by
    induction hr with
    | init => rfl
    | step envIntakeUrl auth_config api_url logger_config filter hr' hok ih =>
      rw [init_logger] at hok
      split at hok
      · cases hok
      · cases hok
        simpa using ih
  refine ⟨hcell, ?_, ?_, ?_⟩
  · intro level
    rw [LoggerFn.enabled, hcell]
  · intro level msg parsed
    rw [LoggerFn.log, hcell]
  · rw [LoggerFn.flush, hcell]

/-- Witness for C5: the state after one `init_logger` call is reachable
and exhibits the empty cell and the panicking facade operations. -/
theorem logger_cell_never_set_witness :
    stAfterInit.loggerCell = none ∧
    (∀ level : Level, LoggerFn.enabled stAfterInit level = .error unwrapNoneMsg) ∧
    (∀ (level : Level) (msg : String) (parsed : Option Json),
      LoggerFn.log stAfterInit level msg parsed = .error unwrapNoneMsg) ∧
    LoggerFn.flush stAfterInit = .error unwrapNoneMsg :=
  logger_cell_never_set stAfterInit
    (Reachable.step none testAuth none testLoggerConfig .info Reachable.init rfl)

/-- C6 counterexample: install the threshold `Error` through
`init_logger`'s filter argument; `is_enabled` still reports `Info` as
enabled, while the spec's threshold predicate says it must be disabled —
the code's check is hardcoded at `Info` and never consults the configured
filter. -/
theorem enabled_ignores_configured_filter :
    init_logger none testAuth none testLoggerConfig .error initialState =
      .ok { loggerCell := none, registered := true, maxLevel := .error } ∧
    testLogger.enabled .info = true ∧
    enabledSpec .error .info = false :=
  ⟨rfl, rfl, rfl⟩

/-- C6 as amended: `is_enabled(level)` is true iff `level` is at least as
severe as `Info` — a threshold hardcoded in `enabled`, not read from the
registration-time filter — and a `log` call at a level this check disables
is a no-op shipping nothing. -/
theorem enabled_hardcoded_info_and_disabled_noop (l : POGRLogger) (level : Level) :
    (l.enabled level = true ↔ level.toNat ≤ Level.info.toNat) ∧
    (l.enabled level = false →
      ∀ (msg : String) (parsed : Option Json), l.log level msg parsed = .ok none) := by
  constructor
  · simp [POGRLogger.enabled, Level.le]
  · intro hdis msg parsed
    simp [POGRLogger.log, hdis]

/-- Witness for the amended C6: at `Debug`, `is_enabled` is false and a
`log` call ships nothing. -/
theorem enabled_hardcoded_info_and_disabled_noop_witness :
    (testLogger.enabled .debug = true ↔ Level.debug.toNat ≤ Level.info.toNat) ∧
    (testLogger.enabled .debug = false →
      ∀ (msg : String) (parsed : Option Json),
        testLogger.log .debug msg parsed = .ok none) :=
  enabled_hardcoded_info_and_disabled_noop testLogger .debug

/-- The list of top-level keys of a JSON value (empty on non-objects). -/
def Json.topKeys : Json → List String
  | .obj fields => fields.map Prod.fst
  | _ => []

/-- C7: for every StructuredEvent submitted via `custom_log`, the shipped
envelope is exactly the seven fields service, environment, severity, type,
log, data and tags, with severity the lowercase level name, and `data` and
`tags` embedded unchanged — no merging is applied to them.  (The `client`
hypothesis holds of every logger built through the public constructor.) -/
theorem custom_log_exact_envelope (l : POGRLogger) (level : Level)
    (msg log_type : String) (data tags : Json) (c : Client)
    (hc : l.client = some c) :
    ∃ req : Request, l.custom_log level msg log_type data tags = some req ∧
      req.body = .obj (customEnvelopeFields l.logger_config level msg log_type data tags) ∧
      req.body.topKeys = ["data", "environment", "log", "service", "severity", "tags", "type"] ∧
      req.body.lookup "service" = some (.str l.logger_config.service) ∧
      req.body.lookup "environment" = some (.str l.logger_config.environment) ∧
      req.body.lookup "severity" = some (.str level.lowercaseName) ∧
      req.body.lookup "type" = some (.str log_type) ∧
      req.body.lookup "log" = some (.str msg) ∧
      req.body.lookup "data" = some data ∧
      req.body.lookup "tags" = some tags := by
  refine ⟨{ url := l.api_url.getD defaultIntakeUrl,
            body := .obj (customEnvelopeFields l.logger_config level msg log_type data tags),
            headers := ("content-type", "application/json") :: authHeaders l.auth_config },
          ?_, rfl, rfl, rfl, rfl, rfl, rfl, rfl, rfl, rfl⟩
  simp [POGRLogger.custom_log, hc]

/-- Witness for C7: a concrete structured event whose `data` object itself
contains a key named "service"; it is embedded unchanged under `data` and
the top-level `service` still carries the logger's identity. -/
theorem custom_log_exact_envelope_witness :
    ∃ req : Request,
      testLogger.custom_log .info "failed" "auth_error"
        (.obj [("service", .str "evil")]) (.obj [("env", .str "prod")]) = some req ∧
      req.body = .obj (customEnvelopeFields testLoggerConfig .info "failed" "auth_error"
        (.obj [("service", .str "evil")]) (.obj [("env", .str "prod")])) ∧
      req.body.topKeys = ["data", "environment", "log", "service", "severity", "tags", "type"] ∧
      req.body.lookup "service" = some (.str testLoggerConfig.service) ∧
      req.body.lookup "environment" = some (.str testLoggerConfig.environment) ∧
      req.body.lookup "severity" = some (.str Level.info.lowercaseName) ∧
      req.body.lookup "type" = some (.str "auth_error") ∧
      req.body.lookup "log" = some (.str "failed") ∧
      req.body.lookup "data" = some (.obj [("service", .str "evil")]) ∧
      req.body.lookup "tags" = some (.obj [("env", .str "prod")]) :=
  custom_log_exact_envelope testLogger .info "failed" "auth_error"
    (.obj [("service", .str "evil")]) (.obj [("env", .str "prod")]) .new rfl

/-- The four auth header names the crate ever uses. -/
def pogrAuthHeaderNames : List String :=
  ["POGR_CLIENT", "POGR_BUILD", "POGR_ACCESS", "POGR_SECRET"]

/-- The auth-header portion of a request's header list. -/
def authHeaderPart (headers : List (String × String)) : List (String × String) :=
  headers.filter (fun h => pogrAuthHeaderNames.contains h.1)

theorem authHeaderPart_authHeaders (cfg : LogConfig) :
    authHeaderPart (authHeaders cfg) = authHeaders cfg := by
  cases cfg <;> simp [authHeaders, authHeaderPart, pogrAuthHeaderNames]

/-- C8: on both dispatch paths, the auth headers attached to a shipped
request are exactly the two of the active `LogConfig` variant —
`POGR_CLIENT`/`POGR_BUILD` for ClientBuild, `POGR_ACCESS`/`POGR_SECRET`
for AccessKeys — and the other variant's header names never appear. -/
theorem dispatch_attaches_exactly_active_auth (l : POGRLogger) :
    (∀ (level : Level) (msg : String) (parsed : Option Json) (req : Request),
      l.log level msg parsed = .ok (some req) →
      authHeaderPart req.headers = authHeaders l.auth_config) ∧
    (∀ (level : Level) (msg log_type : String) (data tags : Json) (req : Request),
      l.custom_log level msg log_type data tags = some req →
      authHeaderPart req.headers = authHeaders l.auth_config) ∧
    (∀ (client_id build_id : String) (lcc : LoggerConfig),
      l.auth_config = .ClientBuild client_id build_id lcc →
      authHeaders l.auth_config = [("POGR_CLIENT", client_id), ("POGR_BUILD", build_id)] ∧
      "POGR_ACCESS" ∉ (authHeaders l.auth_config).map Prod.fst ∧
      "POGR_SECRET" ∉ (authHeaders l.auth_config).map Prod.fst) ∧
    (∀ (access_key secret_key : String) (lcc : LoggerConfig),
      l.auth_config = .AccessKeys access_key secret_key lcc →
      authHeaders l.auth_config = [("POGR_ACCESS", access_key), ("POGR_SECRET", secret_key)] ∧
      "POGR_CLIENT" ∉ (authHeaders l.auth_config).map Prod.fst ∧
      "POGR_BUILD" ∉ (authHeaders l.auth_config).map Prod.fst) := by
  refine ⟨?_, ?_, ?_, ?_⟩
  · intro level msg parsed req h
    rw [POGRLogger.log] at h
    split at h
    · split at h
      · cases h
      · split at h
        · cases h
        · cases h
          exact authHeaderPart_authHeaders l.auth_config
    · cases h
  · intro level msg log_type data tags req h
    rw [POGRLogger.custom_log] at h
    split at h
    · cases h
    · cases h
      simp only [authHeaderPart, List.filter]
      rw [show (pogrAuthHeaderNames.contains "content-type") = false from rfl]
      exact authHeaderPart_authHeaders l.auth_config
  · intro client_id build_id lcc h
    rw [h]
    refine ⟨rfl, ?_, ?_⟩
    · show "POGR_ACCESS" ∉ ["POGR_CLIENT", "POGR_BUILD"]
      decide
    · show "POGR_SECRET" ∉ ["POGR_CLIENT", "POGR_BUILD"]
      decide
  · intro access_key secret_key lcc h
    rw [h]
    refine ⟨rfl, ?_, ?_⟩
    · show "POGR_CLIENT" ∉ ["POGR_ACCESS", "POGR_SECRET"]
      decide
    · show "POGR_BUILD" ∉ ["POGR_ACCESS", "POGR_SECRET"]
      decide

/-- The request one concrete facade `log` call ships. -/
def reqLogTest : Request :=
  { url := "https://example.test/intake",
    body := .obj (logEnvelopeFields testLoggerConfig .info "hi" none),
    headers := authHeaders testAuth }

/-- The request one concrete `custom_log` call ships. -/
def reqCustomTest : Request :=
  { url := "https://example.test/intake",
    body := .obj (customEnvelopeFields testLoggerConfig .info "hi" "t" .null .null),
    headers := ("content-type", "application/json") :: authHeaders testAuth }

/-- Witness for C8: both paths on a concrete AccessKeys logger carry
exactly `POGR_ACCESS`/`POGR_SECRET` and no ClientBuild header. -/
theorem dispatch_attaches_exactly_active_auth_witness :
    authHeaderPart reqLogTest.headers = authHeaders testLogger.auth_config ∧
    authHeaderPart reqCustomTest.headers = authHeaders testLogger.auth_config ∧
    (authHeaders testLogger.auth_config = [("POGR_ACCESS", "AK"), ("POGR_SECRET", "SK")] ∧
      "POGR_CLIENT" ∉ (authHeaders testLogger.auth_config).map Prod.fst ∧
      "POGR_BUILD" ∉ (authHeaders testLogger.auth_config).map Prod.fst) :=
  ⟨(dispatch_attaches_exactly_active_auth testLogger).1 .info "hi" none reqLogTest rfl,
   (dispatch_attaches_exactly_active_auth testLogger).2.1 .info "hi" "t" .null .null
     reqCustomTest rfl,
   (dispatch_attaches_exactly_active_auth testLogger).2.2.2 "AK" "SK" testLoggerConfig rfl⟩

/-- C9: a `structured_log!` invocation routed through the facade
round-trips: the macro's serialized `{log, type, data, tags}` object,
parsed back in `POGRLogger::log` and merged over the base envelope, ships
with the base fields intact plus `log` = msg, `type` = log_type, and
`data`/`tags` unchanged.  (`s` is the serialized message string, unused by
the merge branch.) -/
theorem structured_log_roundtrip (l : POGRLogger) (level : Level)
    (msg log_type : String) (data tags : Json) (s : String) (u : String) (c : Client)
    (hen : l.enabled level = true) (hu : l.api_url = some u) (hc : l.client = some c) :
    ∃ req : Request,
      l.log level s (some (structuredLogMessage msg log_type data tags)) = .ok (some req) ∧
      req.body.lookup "service" = some (.str l.logger_config.service) ∧
      req.body.lookup "environment" = some (.str l.logger_config.environment) ∧
      req.body.lookup "severity" = some (.str level.lowercaseName) ∧
      req.body.lookup "log" = some (.str msg) ∧
      req.body.lookup "type" = some (.str log_type) ∧
      req.body.lookup "data" = some data ∧
      req.body.lookup "tags" = some tags := by
  have hfields : logEnvelopeFields l.logger_config level s
      (some (structuredLogMessage msg log_type data tags)) =
      mergeFold (baseEnvelope l.logger_config level)
        [("data", data), ("log", .str msg), ("tags", tags), ("type", .str log_type)] := rfl
  have hnd : (([("data", data), ("log", Json.str msg), ("tags", tags),
      ("type", Json.str log_type)]).map Prod.fst).Nodup := by
    show (["data", "log", "tags", "type"] : List String).Nodup
    decide
  have hmem : ∀ (k : String) (v : Json),
      (k, v) ∈ [("data", data), ("log", Json.str msg), ("tags", tags),
        ("type", Json.str log_type)] →
      getKey (logEnvelopeFields l.logger_config level s
        (some (structuredLogMessage msg log_type data tags))) k = some v := by
    intro k v hkv
    rw [hfields]
    exact getKey_mergeFold_mem _ _ k v hnd hkv
  have hbase : ∀ k : String, k ∉ (["data", "log", "tags", "type"] : List String) →
      getKey (logEnvelopeFields l.logger_config level s
        (some (structuredLogMessage msg log_type data tags))) k =
      getKey (baseEnvelope l.logger_config level) k := by
    intro k hk
    rw [hfields]
    exact getKey_mergeFold_not_mem _ _ k hk
  refine ⟨{ url := u,
            body := .obj (logEnvelopeFields l.logger_config level s
              (some (structuredLogMessage msg log_type data tags))),
            headers := authHeaders l.auth_config }, ?_, ?_, ?_, ?_, ?_, ?_, ?_, ?_⟩
  · simp [POGRLogger.log, hen, hu, hc]
  · show getKey _ "service" = _
    rw [hbase "service" (by decide)]
    rfl
  · show getKey _ "environment" = _
    rw [hbase "environment" (by decide)]
    rfl
  · show getKey _ "severity" = _
    rw [hbase "severity" (by decide)]
    rfl
  · exact hmem "log" (.str msg) (by simp)
  · exact hmem "type" (.str log_type) (by simp)
  · exact hmem "data" data (by simp)
  · exact hmem "tags" tags (by simp)

/-- Witness for C9: the spec's login scenario through the macro path. -/
theorem structured_log_roundtrip_witness :
    ∃ req : Request,
      testLogger.log .info "serialized"
        (some (structuredLogMessage "User logged in" "login"
          (.obj [("user_id", .num 123)]) (.obj [("env", .str "production")]))) =
        .ok (some req) ∧
      req.body.lookup "service" = some (.str testLoggerConfig.service) ∧
      req.body.lookup "environment" = some (.str testLoggerConfig.environment) ∧
      req.body.lookup "severity" = some (.str Level.info.lowercaseName) ∧
      req.body.lookup "log" = some (.str "User logged in") ∧
      req.body.lookup "type" = some (.str "login") ∧
      req.body.lookup "data" = some (.obj [("user_id", .num 123)]) ∧
      req.body.lookup "tags" = some (.obj [("env", .str "production")]) :=
  structured_log_roundtrip testLogger .info "User logged in" "login"
    (.obj [("user_id", .num 123)]) (.obj [("env", .str "production")])
    "serialized" "https://example.test/intake" .new rfl rfl rfl

/-- C10 (divergence evidence): a first `init_logger` call succeeds but
leaves the `LOGGER` cell empty — the constructed sink is dropped, not
registered — while a second call does panic loudly with the fatal
"Failed to set logger" configuration error, as the claim states. -/
theorem init_drops_sink_and_second_call_panics :
    init_logger none (.ClientBuild "cid" "bid" testLoggerConfig) none testLoggerConfig
      .info initialState = .ok stAfterInit ∧
    stAfterInit.loggerCell = none ∧
    init_logger none (.ClientBuild "cid" "bid" testLoggerConfig) none testLoggerConfig
      .info stAfterInit = .error "Failed to set logger" :=
  ⟨rfl, rfl, rfl⟩
